import Mathlib

/-!
# The storage-engine interface of `mongo/db/storage/storage_engine.h`

A shallow embedding of the abstract class `StorageEngine`, of its nested class
`Factory`, and of the two process-wide entry points `registerFactory` and
`initGlobalStorageEngine`.

* A virtual method becomes a field of a structure (the slot of the virtual table); the
  engine's own data, which every non-`const` method may change, is threaded explicitly
  as a value of a type `σ`.
* The one virtual method with a body, `cleanShutdown`, is a slot that may be left empty;
  dispatch then runs the body of the base class, which is `{}`.
* Pointers to classes that the header only declares (`OperationContext`, `RecoveryUnit`,
  `DatabaseCatalogEntry`) are values of type parameters.
-/

namespace mongo

/-! ## Types the header uses but does not define -/

/-- Modelled from the spec: `Status` of `mongo/base/status.h`, which is not among the
sources. A structured result carrying a category code and a human-readable message;
the code `0` is the category OK. -/
structure Status where
  code : Nat
  reason : String
deriving DecidableEq, Repr

namespace Status

/-- The success status. -/
def OK : Status := ⟨0, ""⟩

/-- Whether the status is the success status. -/
def isOK (st : Status) : Bool := st.code == 0

end Status

/-! ## The class `StorageEngine` -/

/-- The virtual methods of `class StorageEngine`, in the order of the header. `σ` is the
engine's internal state, `Ctx` stands for `OperationContext*`, `RU` for `RecoveryUnit*`
and `DCE` for `DatabaseCatalogEntry*`. Every method but `cleanShutdown` is pure virtual
(`= 0`), so an engine has to supply it; `listDatabases` is `const` and therefore only
reads the state, and it works on the vector `out` the caller passes in. -/
structure StorageEngine (σ Ctx RU DCE : Type) where
  /-- `virtual RecoveryUnit* newRecoveryUnit( OperationContext* opCtx ) = 0` -/
  newRecoveryUnit : Ctx → σ → RU × σ
  /-- `virtual void listDatabases( std::vector<std::string>* out ) const = 0` -/
  listDatabases : List String → σ → List String
  /-- `virtual DatabaseCatalogEntry* getDatabaseCatalogEntry( opCtx, db ) = 0` -/
  getDatabaseCatalogEntry : Ctx → String → σ → DCE × σ
  /-- `virtual Status closeDatabase( OperationContext* txn, const StringData& db ) = 0` -/
  closeDatabase : Ctx → String → σ → Status × σ
  /-- `virtual Status dropDatabase( OperationContext* txn, const StringData& db ) = 0` -/
  dropDatabase : Ctx → String → σ → Status × σ
  /-- `virtual int flushAllFiles( bool sync ) = 0` -/
  flushAllFiles : Bool → σ → Int × σ
  /-- `virtual Status repairDatabase( txn, dbName, preserveClonedFilesOnFailure,
  backupOriginalFiles ) = 0`, with all four arguments given. -/
  repairDatabase : Ctx → String → Bool → Bool → σ → Status × σ
  /-- The slot of `virtual void cleanShutdown(OperationContext* txn)`: `none` for an
  engine that does not override the method. -/
  cleanShutdownOverride : Option (Ctx → σ → σ)

/-- The argument list a caller writes for the two trailing parameters of
`repairDatabase`, both of which are declared with a default value: none of them, the
first only, or both. -/
inductive RepairFlags where
  | omitted
  | preserve (preserveClonedFilesOnFailure : Bool)
  | both (preserveClonedFilesOnFailure : Bool) (backupOriginalFiles : Bool)
deriving DecidableEq, Repr

namespace RepairFlags

/-- The value the call passes for `bool preserveClonedFilesOnFailure = false`. -/
def preserveClonedFilesOnFailure : RepairFlags → Bool
  | omitted => false
  | preserve p => p
  | both p _ => p

/-- The value the call passes for `bool backupOriginalFiles = false`. -/
def backupOriginalFiles : RepairFlags → Bool
  | omitted => false
  | preserve _ => false
  | both _ b => b

end RepairFlags

namespace StorageEngine

variable {σ Ctx RU DCE : Type}

/-- Virtual dispatch of `e->cleanShutdown(txn)`. Without an override the body of the
base class runs: `virtual void cleanShutdown(OperationContext* txn) {}`. -/
def cleanShutdown (e : StorageEngine σ Ctx RU DCE) (txn : Ctx) (s : σ) : σ :=
  match e.cleanShutdownOverride with
  | none => s
  | some body => body txn s

/-- A call `e->repairDatabase(txn, dbName ...)` through the interface: the compiler
fills each omitted trailing argument with the default of the declaration. -/
def repairDatabaseCall (e : StorageEngine σ Ctx RU DCE) (txn : Ctx) (dbName : String)
    (flags : RepairFlags) (s : σ) : Status × σ :=
  e.repairDatabase txn dbName flags.preserveClonedFilesOnFailure flags.backupOriginalFiles s

end StorageEngine

/-- One call of a method of the interface, with its arguments. -/
inductive Call (Ctx : Type) where
  | newRecoveryUnit (opCtx : Ctx)
  | listDatabases (out : List String)
  | getDatabaseCatalogEntry (opCtx : Ctx) (db : String)
  | closeDatabase (txn : Ctx) (db : String)
  | dropDatabase (txn : Ctx) (db : String)
  | flushAllFiles (sync : Bool)
  | repairDatabase (txn : Ctx) (dbName : String) (flags : RepairFlags)
  | cleanShutdown (txn : Ctx)

/-- What a call hands back to its caller. -/
inductive Ret (RU DCE : Type) where
  | recoveryUnit (ru : RU)
  | databases (out : List String)
  | catalogEntry (entry : DCE)
  | status (st : Status)
  | flushed (n : Int)
  | void

/-- Whether the call is a call of `cleanShutdown`. -/
def Call.isCleanShutdown {Ctx : Type} : Call Ctx → Bool
  | .cleanShutdown _ => true
  | _ => false

/-- Whether the call returned nothing, as a `void` method does. -/
def Ret.isVoid {RU DCE : Type} : Ret RU DCE → Bool
  | .void => true
  | _ => false

namespace StorageEngine

variable {σ Ctx RU DCE : Type}

/-- Perform one call on the engine in state `s`: the value returned and the state left. -/
def call (e : StorageEngine σ Ctx RU DCE) (c : Call Ctx) (s : σ) : Ret RU DCE × σ :=
  match c with
  | .newRecoveryUnit opCtx =>
      (.recoveryUnit (e.newRecoveryUnit opCtx s).1, (e.newRecoveryUnit opCtx s).2)
  | .listDatabases out => (.databases (e.listDatabases out s), s)
  | .getDatabaseCatalogEntry opCtx db =>
      (.catalogEntry (e.getDatabaseCatalogEntry opCtx db s).1,
        (e.getDatabaseCatalogEntry opCtx db s).2)
  | .closeDatabase txn db => (.status (e.closeDatabase txn db s).1, (e.closeDatabase txn db s).2)
  | .dropDatabase txn db => (.status (e.dropDatabase txn db s).1, (e.dropDatabase txn db s).2)
  | .flushAllFiles sync => (.flushed (e.flushAllFiles sync s).1, (e.flushAllFiles sync s).2)
  | .repairDatabase txn dbName flags =>
      (.status (e.repairDatabaseCall txn dbName flags s).1,
        (e.repairDatabaseCall txn dbName flags s).2)
  | .cleanShutdown txn => (.void, e.cleanShutdown txn s)

/-- Perform a sequence of calls, one after the other: the values returned, in order, and
the final state. -/
def run (e : StorageEngine σ Ctx RU DCE) : List (Call Ctx) → σ → List (Ret RU DCE) × σ
  | [], s => ([], s)
  | c :: rest, s => ((e.call c s).1 :: (run e rest (e.call c s).2).1, (run e rest (e.call c s).2).2)

end StorageEngine

/-! ## An implementation to run the interface on

The header contains no backend. The instance below is a small in-memory implementation
of the interface, one that has databases to list, to create and to drop; the general
statements are evaluated at it. -/

/-- The state of the in-memory engine `memkv`: the databases it knows, in order of
creation, and the number of recovery units it has issued. -/
structure MemKV where
  dbs : List String
  issued : Nat
deriving DecidableEq, Repr

/-- An in-memory implementation of the eight methods. A recovery unit is its serial
number and a catalog entry is the name of its database. `getDatabaseCatalogEntry`
creates the database when it is absent; `dropDatabase` of a database the engine knows
succeeds and takes it off the list, and of any other is a not-found error. The engine
keeps no files and does not override `cleanShutdown`. -/
def memkv : StorageEngine MemKV Unit Nat String where
  newRecoveryUnit := fun _ s => (s.issued, { s with issued := s.issued + 1 })
  listDatabases := fun out s => out ++ s.dbs
  getDatabaseCatalogEntry := fun _ db s =>
    if db ∈ s.dbs then (db, s) else (db, { s with dbs := s.dbs ++ [db] })
  closeDatabase := fun _ _ s => (Status.OK, s)
  dropDatabase := fun _ db s =>
    if db ∈ s.dbs then (Status.OK, { s with dbs := s.dbs.filter (fun d => d != db) })
    else (⟨26, "ns not found: " ++ db⟩, s)
  flushAllFiles := fun _ s => (0, s)
  repairDatabase := fun _ _ _ _ s => (Status.OK, s)
  cleanShutdownOverride := none

/-! ## The factory registry and the global engine -/

/-- Modelled from the spec: `struct StorageGlobalParams`, which the header only
declares. The process-wide configuration: backend name, data directory and
engine-specific options. -/
structure StorageGlobalParams where
  engine : String
  dbpath : String
  options : List (String × String)
deriving DecidableEq, Repr

/-- The nested class `StorageEngine::Factory`: its one method
`virtual StorageEngine* create( const StorageGlobalParams& params ) const = 0`.
`E` stands for `StorageEngine*`. -/
structure Factory (E : Type) where
  create : StorageGlobalParams → E

/-- The process-wide state behind the two entry points: the registered factories,
newest first, and `extern StorageEngine* globalStorageEngine`, `none` for the null
pointer. -/
structure Process (E : Type) where
  factorys : List (String × Factory E)
  globalStorageEngine : Option E

namespace Process

variable {E : Type}

/-- The process at startup: nothing registered, no engine. -/
def fresh : Process E := ⟨[], none⟩

/-- The names that have a factory. -/
def names (p : Process E) : List String := p.factorys.map Prod.fst

/-- The factory registered under `name`, if any. -/
def factoryOf (p : Process E) (name : String) : Option (Factory E) := p.factorys.lookup name

end Process

variable {E : Type}

/-- Modelled from the spec: the body of `StorageEngine::registerFactory`, of which the
header holds the declaration only. It adds a name to factory association to the
process-wide state and fails if the same name is registered twice. -/
def registerFactory (name : String) (factory : Factory E) (p : Process E) :
    Except String (Process E) :=
  match p.factoryOf name with
  | some _ => .error ("storage engine registered twice: " ++ name)
  | none => .ok { p with factorys := (name, factory) :: p.factorys }

/-- Modelled from the spec: the body of `initGlobalStorageEngine`, of which the header
holds the declaration only. Given the registered factories and the configured backend
name it looks up the matching factory, constructs the engine and publishes it as the
process-wide active instance; it fails fatally if the configured name has no registered
factory. -/
def initGlobalStorageEngine (params : StorageGlobalParams) (p : Process E) :
    Except String (Process E) :=
  match p.factoryOf params.engine with
  | none => .error ("unknown storage engine: " ++ params.engine)
  | some factory => .ok { p with globalStorageEngine := some (factory.create params) }

/-- The engine a step leaves published: that of the state it ends in, and none when the
step failed and the process cannot proceed. -/
def published : Except String (Process E) → Option E
  | .ok p => p.globalStorageEngine
  | .error _ => none

/-- The startup phase: the calls of `registerFactory` made by the backends, in the
order given. The first call that fails ends it. -/
def registerAll : List (String × Factory E) → Process E → Except String (Process E)
  | [], p => .ok p
  | (name, factory) :: rest, p =>
    match registerFactory name factory p with
    | .error msg => .error msg
    | .ok p1 => registerAll rest p1

/-! ## The base-class body of `cleanShutdown` -/

namespace StorageEngine

variable {σ Ctx RU DCE : Type}

theorem cleanShutdown_of_not_overridden (e : StorageEngine σ Ctx RU DCE)
    (h : e.cleanShutdownOverride = none) (txn : Ctx) (s : σ) : e.cleanShutdown txn s = s := by
  unfold cleanShutdown
  rw [h]

theorem call_isVoid_iff (e : StorageEngine σ Ctx RU DCE) (c : Call Ctx) (s : σ) :
    (e.call c s).1.isVoid = c.isCleanShutdown := by
  cases c <;> rfl

theorem run_cons (e : StorageEngine σ Ctx RU DCE) (c : Call Ctx) (cs : List (Call Ctx)) (s : σ) :
    e.run (c :: cs) s = ((e.call c s).1 :: (e.run cs (e.call c s).2).1, (e.run cs (e.call c s).2).2) :=
  rfl

theorem run_skip_cleanShutdown (e : StorageEngine σ Ctx RU DCE)
    (h : e.cleanShutdownOverride = none) (cs : List (Call Ctx)) :
    ∀ s : σ, (e.run cs s).2 = (e.run (cs.filter (fun c => !c.isCleanShutdown)) s).2 ∧
      (e.run cs s).1.filter (fun r => !r.isVoid)
        = (e.run (cs.filter (fun c => !c.isCleanShutdown)) s).1 := by
  induction cs with
  | nil => intro s; exact ⟨rfl, rfl⟩
  | cons c cs ih =>
    intro s
    have hv := call_isVoid_iff e c s
    cases hc : c.isCleanShutdown with
    | true =>
      have hs : (e.call c s).2 = s := by
        cases c <;> simp [Call.isCleanShutdown] at hc
        exact cleanShutdown_of_not_overridden e h _ s
      rw [hc] at hv
      rw [run_cons, List.filter_cons_of_neg (by simp [hc]), List.filter_cons_of_neg (by simp [hv]), hs]
      exact ih s
    | false =>
      rw [hc] at hv
      rw [run_cons, List.filter_cons_of_pos (by simp [hc]), List.filter_cons_of_pos (by simp [hv]),
        run_cons]
      exact ⟨(ih _).1, by rw [(ih _).2]⟩

end StorageEngine

/-! ## The registry as an association list -/

theorem lookup_eq_none_iff_not_mem {β : Type} (name : String) (l : List (String × β)) :
    l.lookup name = none ↔ name ∉ l.map Prod.fst := by
  induction l with
  | nil => simp
  | cons kv l ih =>
    obtain ⟨k, v⟩ := kv
    by_cases hk : name = k
    · subst hk; simp [List.lookup]
    · have hb : (name == k) = false := by simpa using hk
      simp [List.lookup, hb, ih, hk]

theorem lookup_of_mem_of_nodup {β : Type} (name : String) (v : β) (l : List (String × β))
    (hnd : (l.map Prod.fst).Nodup) (hmem : (name, v) ∈ l) : l.lookup name = some v := by
  induction l with
  | nil => simp at hmem
  | cons kv l ih =>
    obtain ⟨k, w⟩ := kv
    rw [List.map_cons, List.nodup_cons] at hnd
    rcases List.mem_cons.mp hmem with heq | hin
    · cases heq; simp [List.lookup]
    · have hk : name ≠ k := by
        rintro rfl
        exact hnd.1 (List.mem_map.mpr ⟨(name, v), hin, rfl⟩)
      have hb : (name == k) = false := by simpa using hk
      simp [List.lookup, hb, ih hnd.2 hin]

theorem mem_of_lookup_eq_some {β : Type} (name : String) (v : β) (l : List (String × β))
    (h : l.lookup name = some v) : (name, v) ∈ l := by
  induction l with
  | nil => simp at h
  | cons kv l ih =>
    obtain ⟨k, w⟩ := kv
    by_cases hk : name = k
    · subst hk
      simp [List.lookup] at h
      subst h
      exact List.mem_cons_self _ _
    · have hb : (name == k) = false := by simpa using hk
      simp [List.lookup, hb] at h
      exact List.mem_cons_of_mem _ (ih h)

theorem registerFactory_ok_iff (name : String) (factory : Factory E) (p p1 : Process E) :
    registerFactory name factory p = .ok p1 ↔
      name ∉ p.names ∧ p1 = { p with factorys := (name, factory) :: p.factorys } := by
  unfold registerFactory Process.factoryOf
  cases hl : p.factorys.lookup name with
  | none =>
    have := (lookup_eq_none_iff_not_mem name p.factorys).mp hl
    simp [Process.names, this, eq_comm]
  | some f =>
    have hin : name ∈ p.factorys.map Prod.fst :=
      List.mem_map_of_mem Prod.fst (mem_of_lookup_eq_some name f _ hl)
    simp [Process.names, hin]

theorem registerFactory_error_of_mem (name : String) (factory : Factory E) (p : Process E)
    (h : name ∈ p.names) :
    registerFactory name factory p = .error ("storage engine registered twice: " ++ name) := by
  unfold registerFactory Process.factoryOf
  cases hl : p.factorys.lookup name with
  | none => exact absurd h ((lookup_eq_none_iff_not_mem name p.factorys).mp hl)
  | some f => rfl

theorem registerAll_ok_iff (calls : List (String × Factory E)) :
    ∀ p p1 : Process E, registerAll calls p = .ok p1 ↔
      (calls.map Prod.fst).Nodup ∧ (∀ name ∈ calls.map Prod.fst, name ∉ p.names) ∧
        p1 = { p with factorys := calls.reverse ++ p.factorys } := by
  induction calls with
  | nil => intro p p1; cases p; simp [registerAll, eq_comm]
  | cons c calls ih =>
    obtain ⟨name, factory⟩ := c
    intro p p1
    unfold registerAll
    cases hr : registerFactory name factory p with
    | error msg =>
      have hin : ¬ name ∉ p.names := by
        intro hn
        have := (registerFactory_ok_iff name factory p _).mpr ⟨hn, rfl⟩
        rw [hr] at this
        cases this
      simp only [false_iff, reduceCtorEq]
      rintro ⟨-, h2, -⟩
      exact hin (h2 name (by simp))
    | ok p2 =>
      obtain ⟨hn, rfl⟩ := (registerFactory_ok_iff name factory p p2).mp hr
      simp only [ih, Process.names, List.map_cons, List.nodup_cons, List.mem_cons,
        List.reverse_cons, List.append_assoc, List.singleton_append, forall_eq_or_imp]
      constructor
      · rintro ⟨h1, h2, h3⟩
        refine ⟨⟨fun hm => (h2 name hm) (Or.inl rfl), h1⟩, ⟨hn, fun n hm hp => h2 n hm (Or.inr hp)⟩, h3⟩
      · rintro ⟨⟨h1, h2⟩, ⟨-, h4⟩, h5⟩
        refine ⟨h2, fun n hm hp => ?_, h5⟩
        rcases hp with rfl | hp
        · exact h1 hm
        · exact h4 n hm hp

theorem lookup_eq_of_perm {β : Type} (l1 l2 : List (String × β)) (hp : l1.Perm l2)
    (hnd : (l1.map Prod.fst).Nodup) (name : String) : l1.lookup name = l2.lookup name := by
  have hnd2 : (l2.map Prod.fst).Nodup := (hp.map Prod.fst).nodup_iff.mp hnd
  cases h1 : l1.lookup name with
  | none =>
    have hn := (lookup_eq_none_iff_not_mem name l1).mp h1
    have hn2 : name ∉ l2.map Prod.fst := fun hm => hn ((hp.map Prod.fst).mem_iff.mpr hm)
    exact ((lookup_eq_none_iff_not_mem name l2).mpr hn2).symm
  | some v =>
    have hm := mem_of_lookup_eq_some name v l1 h1
    exact (lookup_of_mem_of_nodup name v l2 hnd2 (hp.mem_iff.mp hm)).symm

/-! ## The claims -/

/-- C1: after a startup phase in which every `registerFactory(name, factory)` call
succeeded, `initGlobalStorageEngine` run with a registered name configured succeeds and
sets `globalStorageEngine` to the engine that this very factory creates from the
parameters, changing nothing else; run with a name that no call registered it fails
fatally and publishes no engine. -/
theorem initGlobalStorageEngine_uses_registered_factory
    (calls : List (String × Factory E)) (g : Process E) (params : StorageGlobalParams)
    (h : registerAll calls Process.fresh = .ok g) :
    (∀ factory : Factory E, (params.engine, factory) ∈ calls →
      initGlobalStorageEngine params g
          = .ok { g with globalStorageEngine := some (factory.create params) } ∧
        published (initGlobalStorageEngine params g) = some (factory.create params)) ∧
    (params.engine ∉ calls.map Prod.fst →
      initGlobalStorageEngine params g
          = .error ("unknown storage engine: " ++ params.engine) ∧
        published (initGlobalStorageEngine params g) = none) := by
  obtain ⟨hnd, -, rfl⟩ := (registerAll_ok_iff calls Process.fresh g).mp h
  have hkeys : ((calls.reverse ++ (Process.fresh : Process E).factorys).map Prod.fst).Nodup := by
    simpa [Process.fresh, List.map_reverse] using hnd
  constructor
  · intro factory hmem
    have hl : (calls.reverse ++ (Process.fresh : Process E).factorys).lookup params.engine
        = some factory :=
      lookup_of_mem_of_nodup _ _ _ hkeys (by simpa [Process.fresh] using hmem)
    have hi : initGlobalStorageEngine params
        { (Process.fresh : Process E) with factorys := calls.reverse ++ Process.fresh.factorys }
        = .ok { ({ (Process.fresh : Process E) with
                    factorys := calls.reverse ++ Process.fresh.factorys } : Process E) with
                  globalStorageEngine := some (factory.create params) } := by
      simp only [initGlobalStorageEngine, Process.factoryOf, hl]
    exact ⟨hi, by rw [hi]; rfl⟩
  · intro hnot
    have hl : (calls.reverse ++ (Process.fresh : Process E).factorys).lookup params.engine
        = none :=
      (lookup_eq_none_iff_not_mem _ _).mpr (by simpa [Process.fresh, List.map_reverse] using hnot)
    have hi : initGlobalStorageEngine params
        { (Process.fresh : Process E) with factorys := calls.reverse ++ Process.fresh.factorys }
        = .error ("unknown storage engine: " ++ params.engine) := by
      simp only [initGlobalStorageEngine, Process.factoryOf, hl]
    exact ⟨hi, by rw [hi]; rfl⟩

/-- C8: whatever sequence of `registerFactory` calls the startup phase ran
successfully, the registry holds every name once, so a name has one factory; a further
`registerFactory(name, f2)` for a name that is registered fails; and running the same
calls in any other order succeeds too and maps every name to the same factory. -/
theorem registry_one_factory_per_name
    (calls : List (String × Factory E)) (g : Process E)
    (h : registerAll calls Process.fresh = .ok g) :
    g.names.Nodup ∧
    (∀ (name : String) (f1 f2 : Factory E),
      (name, f1) ∈ g.factorys → (name, f2) ∈ g.factorys → f1 = f2) ∧
    (∀ (name : String) (f2 : Factory E), name ∈ g.names →
      registerFactory name f2 g = .error ("storage engine registered twice: " ++ name)) ∧
    (∀ calls2 : List (String × Factory E), calls2.Perm calls →
      ∃ g2, registerAll calls2 Process.fresh = .ok g2 ∧
        ∀ name, g2.factoryOf name = g.factoryOf name) := by
  obtain ⟨hnd, -, rfl⟩ := (registerAll_ok_iff calls Process.fresh g).mp h
  have hkeys : ((calls.reverse ++ (Process.fresh : Process E).factorys).map Prod.fst).Nodup := by
    simpa [Process.fresh, List.map_reverse] using hnd
  refine ⟨hkeys, ?_, ?_, ?_⟩
  · intro name f1 f2 h1 h2
    have e1 := lookup_of_mem_of_nodup name f1 _ hkeys h1
    have e2 := lookup_of_mem_of_nodup name f2 _ hkeys h2
    rw [e1] at e2
    exact Option.some.inj e2
  · intro name f2 hmem
    exact registerFactory_error_of_mem name f2 _ hmem
  · intro calls2 hp
    have hnd2 : (calls2.map Prod.fst).Nodup := (hp.map Prod.fst).nodup_iff.mpr hnd
    refine ⟨{ (Process.fresh : Process E) with factorys := calls2.reverse ++ Process.fresh.factorys },
      (registerAll_ok_iff calls2 Process.fresh _).mpr ⟨hnd2, by simp [Process.fresh, Process.names], rfl⟩,
      fun name => ?_⟩
    have hp2 : (calls2.reverse ++ (Process.fresh : Process E).factorys).Perm
        (calls.reverse ++ (Process.fresh : Process E).factorys) := by
      simpa [Process.fresh] using ((List.reverse_perm calls2).trans hp).trans (List.reverse_perm calls).symm
    exact lookup_eq_of_perm _ _ hp2
      (by simpa [Process.fresh, List.map_reverse] using hnd2) name

/-- C1, at an instance: two backends register, `memkv` is configured and becomes the
global engine; with `rocks` configured the initialization fails and publishes nothing. -/
theorem initGlobalStorageEngine_uses_registered_factory_witness :
    registerAll [("memkv", (⟨fun params => "memkv at " ++ params.dbpath⟩ : Factory String)),
        ("heap1", ⟨fun _ => "heap1"⟩)] Process.fresh
      = .ok ⟨[("heap1", ⟨fun _ => "heap1"⟩),
          ("memkv", ⟨fun params => "memkv at " ++ params.dbpath⟩)], none⟩ ∧
    published (initGlobalStorageEngine ⟨"memkv", "/data/db", []⟩
      (⟨[("heap1", ⟨fun _ => "heap1"⟩),
          ("memkv", ⟨fun params => "memkv at " ++ params.dbpath⟩)], none⟩ : Process String))
      = some ("memkv at " ++ "/data/db") ∧
    published (initGlobalStorageEngine ⟨"rocks", "/data/db", []⟩
      (⟨[("heap1", ⟨fun _ => "heap1"⟩),
          ("memkv", ⟨fun params => "memkv at " ++ params.dbpath⟩)], none⟩ : Process String))
      = none :=
  ⟨rfl,
    ((initGlobalStorageEngine_uses_registered_factory
      [("memkv", (⟨fun params => "memkv at " ++ params.dbpath⟩ : Factory String)),
        ("heap1", ⟨fun _ => "heap1"⟩)] _ ⟨"memkv", "/data/db", []⟩ rfl).1
      ⟨fun params => "memkv at " ++ params.dbpath⟩ (List.mem_cons_self _ _)).2,
    ((initGlobalStorageEngine_uses_registered_factory
      [("memkv", (⟨fun params => "memkv at " ++ params.dbpath⟩ : Factory String)),
        ("heap1", ⟨fun _ => "heap1"⟩)] _ ⟨"rocks", "/data/db", []⟩ rfl).2 (by decide)).2⟩

/-- C8, at an instance: after `memkv` and `heap1` have registered, each name is held
once and a second registration of `memkv` fails. -/
theorem registry_one_factory_per_name_witness :
    registerAll [("memkv", (⟨fun _ => "memkv"⟩ : Factory String)), ("heap1", ⟨fun _ => "heap1"⟩)]
        Process.fresh
      = .ok ⟨[("heap1", ⟨fun _ => "heap1"⟩), ("memkv", ⟨fun _ => "memkv"⟩)], none⟩ ∧
    (⟨[("heap1", ⟨fun _ => "heap1"⟩), ("memkv", ⟨fun _ => "memkv"⟩)], none⟩ :
      Process String).names.Nodup ∧
    registerFactory "memkv" ⟨fun _ => "other"⟩
        (⟨[("heap1", ⟨fun _ => "heap1"⟩), ("memkv", ⟨fun _ => "memkv"⟩)], none⟩ : Process String)
      = .error ("storage engine registered twice: " ++ "memkv") :=
  ⟨rfl,
    (registry_one_factory_per_name
      [("memkv", (⟨fun _ => "memkv"⟩ : Factory String)), ("heap1", ⟨fun _ => "heap1"⟩)] _ rfl).1,
    (registry_one_factory_per_name
      [("memkv", (⟨fun _ => "memkv"⟩ : Factory String)), ("heap1", ⟨fun _ => "heap1"⟩)] _ rfl).2.2.1
      "memkv" ⟨fun _ => "other"⟩ (by decide)⟩

namespace StorageEngine

variable {σ Ctx RU DCE : Type}

/-- C6: for an engine that does not override `cleanShutdown`, the call
`cleanShutdown(txn)` returns nothing and leaves the engine state as it was, whatever
`txn` is; hence `listDatabases` and every other call give the same result and the same
state after it as before it. -/
theorem cleanShutdown_not_overridden_is_noop (e : StorageEngine σ Ctx RU DCE)
    (h : e.cleanShutdownOverride = none) (txn : Ctx) (s : σ) :
    e.call (.cleanShutdown txn) s = (.void, s) ∧
    (∀ out, e.listDatabases out (e.cleanShutdown txn s) = e.listDatabases out s) ∧
    (∀ c, e.call c (e.cleanShutdown txn s) = e.call c s) := by
  have hs := cleanShutdown_of_not_overridden e h txn s
  refine ⟨?_, fun out => by rw [hs], fun c => by rw [hs]⟩
  show (Ret.void, e.cleanShutdown txn s) = (Ret.void, s)
  rw [hs]

/-- C7: a call of `repairDatabase` through the interface that omits both flags is the
call with `false, false`, and one that gives only the first flag `p` is the call with
`p, false`: same status, same resulting state. A call that gives both passes them on
as they are. -/
theorem repairDatabase_flags_default_false (e : StorageEngine σ Ctx RU DCE) (txn : Ctx)
    (dbName : String) (p b : Bool) (s : σ) :
    e.repairDatabaseCall txn dbName .omitted s
      = e.repairDatabaseCall txn dbName (.both false false) s ∧
    e.repairDatabaseCall txn dbName (.preserve p) s
      = e.repairDatabaseCall txn dbName (.both p false) s ∧
    e.repairDatabaseCall txn dbName (.both p b) s = e.repairDatabase txn dbName p b s :=
  ⟨rfl, rfl, rfl⟩

/-- C5, as the interface has it: an engine that does not override `cleanShutdown` keeps
no record of the call. A second `cleanShutdown` leaves the state as the first left it,
and in any sequence of calls the `cleanShutdown` calls can be struck out: the other
calls return the same values and end in the same state, so none of them is rejected
or turned into a no-op for coming after `cleanShutdown`. -/
theorem cleanShutdown_not_overridden_records_nothing (e : StorageEngine σ Ctx RU DCE)
    (h : e.cleanShutdownOverride = none) (txn txn2 : Ctx) (cs : List (Call Ctx)) (s : σ) :
    e.cleanShutdown txn2 (e.cleanShutdown txn s) = e.cleanShutdown txn s ∧
    e.run cs (e.cleanShutdown txn s) = e.run cs s ∧
    (e.run cs s).2 = (e.run (cs.filter (fun c => !c.isCleanShutdown)) s).2 ∧
    (e.run cs s).1.filter (fun r => !r.isVoid)
      = (e.run (cs.filter (fun c => !c.isCleanShutdown)) s).1 := by
  refine ⟨cleanShutdown_of_not_overridden e h txn2 _, ?_, run_skip_cleanShutdown e h cs s⟩
  rw [cleanShutdown_of_not_overridden e h txn s]

end StorageEngine

/-- C6, at an instance: `memkv` does not override `cleanShutdown`; the call changes
nothing, and dropping the database `test` after it does what it does before it. -/
theorem cleanShutdown_not_overridden_is_noop_witness :
    memkv.cleanShutdownOverride = none ∧
    memkv.call (.cleanShutdown ()) ⟨["test"], 2⟩ = (.void, ⟨["test"], 2⟩) ∧
    memkv.call (.dropDatabase () "test") (memkv.cleanShutdown () ⟨["test"], 2⟩)
      = memkv.call (.dropDatabase () "test") ⟨["test"], 2⟩ :=
  ⟨rfl, (StorageEngine.cleanShutdown_not_overridden_is_noop memkv rfl () ⟨["test"], 2⟩).1,
    (StorageEngine.cleanShutdown_not_overridden_is_noop memkv rfl () ⟨["test"], 2⟩).2.2
      (.dropDatabase () "test")⟩

/-- C5, at an instance: on `memkv`, creating `test`, shutting down twice and then
dropping `test` ends in the state that creating and dropping alone end in. -/
theorem cleanShutdown_not_overridden_records_nothing_witness :
    memkv.cleanShutdownOverride = none ∧
    (memkv.run [.getDatabaseCatalogEntry () "test", .cleanShutdown (), .cleanShutdown (),
        .dropDatabase () "test"] ⟨[], 0⟩).2
      = (memkv.run ([.getDatabaseCatalogEntry () "test", .cleanShutdown (), .cleanShutdown (),
          .dropDatabase () "test"].filter (fun c => !c.isCleanShutdown)) ⟨[], 0⟩).2 :=
  ⟨rfl, (StorageEngine.cleanShutdown_not_overridden_records_nothing memkv rfl () ()
    [.getDatabaseCatalogEntry () "test", .cleanShutdown (), .cleanShutdown (),
      .dropDatabase () "test"] ⟨[], 0⟩).2.2.1⟩

/-- C5 fails as stated: on `memkv` in a state that holds the database `test`, the call
`dropDatabase(txn, "test")` made after `cleanShutdown(txn)` is not rejected, for it
returns OK, and is not a no-op on the engine state, for it takes `test` off the list. -/
theorem dropDatabase_after_cleanShutdown_takes_effect :
    ((memkv.dropDatabase () "test" (memkv.cleanShutdown () ⟨["test"], 0⟩)).1.isOK = true) ∧
    (memkv.dropDatabase () "test" (memkv.cleanShutdown () ⟨["test"], 0⟩)).2
      ≠ memkv.cleanShutdown () ⟨["test"], 0⟩ ∧
    memkv.listDatabases [] (memkv.cleanShutdown () ⟨["test"], 0⟩) = ["test"] ∧
    memkv.listDatabases []
      (memkv.dropDatabase () "test" (memkv.cleanShutdown () ⟨["test"], 0⟩)).2 = [] := by
  decide

end mongo
